import Mathlib

/-!
Shallow embedding of the zk-auth-rust benchmarking harness
(`bench-mark/bench.js`, the k6 staged-load script, and the sweep driver in
`main`).  JavaScript numbers are modelled as `ℚ`; a possibly-`undefined`
JavaScript value is an `Option`; a promise that can reject is an `Except`.
External effects (HTTP responses, `pidusage` ticks, autocannon results,
`Math.random`) are supplied as explicit inputs, so every function here is
the pure data flow of the corresponding JavaScript.
-/

namespace Bench

/-- JavaScript truthiness of a number-or-undefined value: `undefined` and `0`
are falsy, every other number is truthy. -/
def jsTruthy : Option ℚ → Bool
  | none => false
  | some x => x ≠ 0

/-- JavaScript `a || b` on number-or-undefined values. -/
def jsOr (a b : Option ℚ) : Option ℚ :=
  if jsTruthy a then a else b

/-- One resource observation pushed by `pidusage` (`bench.js`): CPU percent
and memory bytes. -/
structure Sample where
  cpu : ℚ
  memory : ℚ
deriving DecidableEq

/-- The pair averaged by `computeAverages` in `bench.js`. -/
structure Averages where
  cpu : ℚ
  memory : ℚ
deriving DecidableEq

/-- `computeAverages` from `bench.js`: `null` on an empty sample list,
otherwise the `reduce`-accumulated sums divided by the length. -/
def computeAverages (samples : List Sample) : Option Averages :=
  if samples.length = 0 then none
  else
    let sum := samples.foldl
      (fun a s => Averages.mk (a.cpu + s.cpu) (a.memory + s.memory))
      (Averages.mk 0 0)
    let n : ℚ := samples.length
    some (Averages.mk (sum.cpu / n) (sum.memory / n))

/-- One tick of the `setInterval` callback in `startResourceMonitor`:
`samples.push(await pidusage(pid))` inside `try { } catch {}` — a successful
lookup appends its sample, a rejected lookup is swallowed. -/
def monitorTick (samples : List Sample) (o : Except Unit Sample) : List Sample :=
  match o with
  | Except.ok s => samples ++ [s]
  | Except.error _ => samples

/-- The sample list accumulated by `startResourceMonitor` after the given
sequence of `pidusage` tick outcomes, starting from the empty array. -/
def runMonitor (ticks : List (Except Unit Sample)) : List Sample :=
  ticks.foldl monitorTick []

/-- `monitor.stop()` in `bench.js` only calls `clearInterval`; the `samples`
array stays readable unchanged. -/
def stopMonitor (samples : List Sample) : List Sample := samples

/-- Outcome of one `axios.get(BASE_URL)` attempt in `waitForServer`:
a 2xx response, a non-2xx response (axios rejects, but the error object
carries `e.response`), or a network error (axios rejects and `e.response`
is `undefined`). -/
inductive GetOutcome
  | success
  | httpError
  | netError
deriving DecidableEq

/-- The body of `waitForServer`'s `try`:
`await axios.get(BASE_URL).catch(e => e.response)`.  The `.catch` handler
never throws — it returns `e.response`, which is `undefined` on a network
error — so the composed promise always resolves (`Except.ok`); the value is
the response if any (`Option`). -/
def tryAttempt (o : GetOutcome) : Except Unit (Option Unit) :=
  Except.ok (match o with
    | GetOutcome.success => some ()
    | GetOutcome.httpError => some ()
    | GetOutcome.netError => none)

/-- The `for (let i = 1; i <= maxAttempts; i++)` loop of `waitForServer`,
with explicit fuel equal to the remaining iterations.  If the `try` body
resolves the function returns; only if it rejected would the catch branch
retry or, at `i = maxAttempts`, throw `Server not reachable`. -/
def waitForServerLoop (outcomes : Nat → GetOutcome) (maxAttempts : Nat) :
    Nat → Nat → Except String Unit
  | 0, _ => Except.ok ()
  | fuel + 1, i =>
    match tryAttempt (outcomes i) with
    | Except.ok _ => Except.ok ()
    | Except.error _ =>
      if i = maxAttempts then
        Except.error "Server not reachable at http://localhost:8080"
      else
        waitForServerLoop outcomes maxAttempts fuel (i + 1)

/-- `waitForServer(maxAttempts = 30, delayMs = 1000)` from `bench.js`;
the backoff delay has no effect on the result and is not modelled. -/
def waitForServer (outcomes : Nat → GetOutcome) (maxAttempts : Nat) :
    Except String Unit :=
  waitForServerLoop outcomes maxAttempts maxAttempts 1

/-- The synthetic user record built by `buildUser` in `bench.js`. -/
structure User where
  email : String
  name : String
  age : Nat
  country : String
  dob : String
deriving DecidableEq

/-- `buildUser` from `bench.js`, with the `Math.random().toString(36).slice(2)`
value supplied as the explicit argument `rnd`. -/
def buildUser (rnd : String) : User :=
  { email := "user-" ++ rnd ++ "@example.com"
  , name := "Alice Doe"
  , age := 35
  , country := "US"
  , dob := "1989-05-17" }

/-- Body of the `/register` preflight response (`reg.data`); either field may
be absent from the JSON, which JavaScript reads as `undefined`. -/
structure RegisterData where
  secret : Option String
  commitment : Option String
deriving DecidableEq

/-- Body of the `/proof` preflight response (`prf.data`); the proof object is
modelled by its serialized form. -/
structure ProofData where
  proof : Option String
deriving DecidableEq

/-- Body of the `/verify` preflight response (`verResp.data`). -/
structure VerifyData where
  valid : Option Bool
deriving DecidableEq

/-- The values `secretHex`, `commitment`, `proof` captured by `main` during
preflight and reused by the sweep; each is whatever the corresponding
response carried, possibly `undefined`. -/
structure Fixture where
  secretHex : Option String
  commitment : Option String
  proof : Option String
deriving DecidableEq

/-- The request body an endpoint template produces: the JSON bodies built in
the `endpoints` array of `bench.js`. -/
inductive Payload
  | userPayload (u : User)
  | proofReq (secretHex : Option String) (commitment : Option String)
  | verifyReq (commitment : Option String) (proof : Option String)
deriving DecidableEq

/-- One entry of the `endpoints` array: a name plus a request template.
`payload i` is the body of the `i`-th request of a phase — `setupRequest`
rebuilds it per request for `/register`, while `/proof` and `/verify` carry a
`body` string fixed when the array is defined. -/
structure EndpointSpec where
  name : String
  method : String
  path : String
  payload : Nat → Payload

/-- The `endpoints` array from `main` in `bench.js`, parametrised by the
per-request randomness stream `rnd` consumed by `buildUser` and the preflight
fixture. -/
def endpoints (rnd : Nat → String) (fx : Fixture) : List EndpointSpec :=
  [ { name := "register", method := "POST", path := "/register"
    , payload := fun i => Payload.userPayload (buildUser (rnd i)) }
  , { name := "generateProof", method := "POST", path := "/proof"
    , payload := fun _ => Payload.proofReq fx.secretHex fx.commitment }
  , { name := "verifyProof", method := "POST", path := "/verify"
    , payload := fun _ => Payload.verifyReq fx.commitment fx.proof } ]

/-- The latency block of an autocannon result; `average` is always present
(the script calls `.toFixed` on it), the three fields consulted by the `||`
fallback may each be absent. -/
structure LatencyStats where
  average : ℚ
  p50 : Option ℚ
  median : Option ℚ
  mean : Option ℚ
deriving DecidableEq

/-- A statistics block of which the script only reads `.average`. -/
structure StatBlock where
  average : ℚ
deriving DecidableEq

/-- The autocannon result consumed per phase in `main`. -/
structure AutocannonResult where
  latency : LatencyStats
  throughput : StatBlock
  requests : StatBlock
deriving DecidableEq

/-- One record pushed onto `summaries` in `main`. -/
structure SummaryRecord where
  endpoint : String
  concurrency : Nat
  latencyAvg : ℚ
  latencyP50 : Option ℚ
  throughputAvg : ℚ
  requestsPerSec : ℚ
  cpu : Option ℚ
  memory : Option ℚ
deriving DecidableEq

/-- What one iteration of the sweep loop did: whether a resource monitor was
started for the phase, and the summary it pushed. -/
structure PhaseExec where
  monitorStarted : Bool
  summary : SummaryRecord
deriving DecidableEq

/-- `CONCURRENCY_LEVELS` from `bench.js`. -/
def CONCURRENCY_LEVELS : List Nat := [1, 10, 15, 20, 25, 30]

/-- The body of the sweep's inner loop in `main`: start a monitor only when a
server pid was found, run autocannon, stop the monitor, average its samples
(`avg` stays `null` without a monitor), and push the summary, whose
`latencyP50` is the JavaScript chain `p50 || median || mean` and whose
`cpu`/`memory` are `avg ? avg.cpu : null` / `avg ? avg.memory : null`. -/
def runPhase (serverPid : Option Nat) (ticks : List (Except Unit Sample))
    (result : AutocannonResult) (epName : String) (c : Nat) : PhaseExec :=
  let monitorSamples : Option (List Sample) :=
    match serverPid with
    | some _ => some (stopMonitor (runMonitor ticks))
    | none => none
  let avg : Option Averages :=
    match monitorSamples with
    | some ss => computeAverages ss
    | none => none
  { monitorStarted := monitorSamples.isSome
  , summary :=
    { endpoint := epName
    , concurrency := c
    , latencyAvg := result.latency.average
    , latencyP50 := jsOr (jsOr result.latency.p50 result.latency.median)
        result.latency.mean
    , throughputAvg := result.throughput.average
    , requestsPerSec := result.requests.average
    , cpu := avg.map Averages.cpu
    , memory := avg.map Averages.memory } }

/-- All external inputs of one run of `main`: the readiness-probe outcomes,
the three preflight responses, the resolved server pid, and, per phase
(keyed by endpoint name and concurrency), the `pidusage` tick outcomes and
the autocannon result. -/
structure MainEnv where
  getOutcomes : Nat → GetOutcome
  registerResp : Except Unit RegisterData
  proofResp : Except Unit ProofData
  verifyResp : Except Unit VerifyData
  serverPid : Option Nat
  phaseTicks : String → Nat → List (Except Unit Sample)
  phaseResults : String → Nat → AutocannonResult
  rnd : Nat → String

/-- The preflight block of `main`: POST `/register`, `/proof`, `/verify` in
order; a rejected promise at any step propagates out of the `try` as the
fatal error; a `valid` field that is not `true` throws
`Initial verification failed`.  Field extraction itself never throws — an
absent `secret`/`commitment`/`proof` is carried as `undefined`. -/
def preflight (env : MainEnv) : Except String Fixture :=
  match env.registerResp with
  | Except.error _ =>
    Except.error "Failed to pre-compute proof / verification payloads"
  | Except.ok reg =>
    match env.proofResp with
    | Except.error _ =>
      Except.error "Failed to pre-compute proof / verification payloads"
    | Except.ok prf =>
      match env.verifyResp with
      | Except.error _ =>
        Except.error "Failed to pre-compute proof / verification payloads"
      | Except.ok ver =>
        if ver.valid = some true then
          Except.ok
            { secretHex := reg.secret
            , commitment := reg.commitment
            , proof := prf.proof }
        else
          Except.error "Initial verification failed; proof or commitment invalid"

/-- The sweep loops of `main`: for each endpoint, for each concurrency level,
one phase. -/
def runSweep (env : MainEnv) (fx : Fixture) : List PhaseExec :=
  (endpoints env.rnd fx).flatMap fun ep =>
    CONCURRENCY_LEVELS.map fun c =>
      runPhase env.serverPid (env.phaseTicks ep.name c)
        (env.phaseResults ep.name c) ep.name c

/-- The whole `main` IIFE: readiness check, preflight, then the sweep; any
thrown error short-circuits to the trailing `.catch`. -/
def mainRun (env : MainEnv) : Except String (List PhaseExec) :=
  match waitForServer env.getOutcomes 30 with
  | Except.error e => Except.error e
  | Except.ok _ =>
    match preflight env with
    | Except.error e => Except.error e
    | Except.ok fx => Except.ok (runSweep env fx)

/-- The process exit status: the trailing
`.catch(err => { console.error(err); process.exit(1); })` exits 1 on any
error, a completed run exits 0. -/
def exitCode (r : Except String (List PhaseExec)) : Nat :=
  match r with
  | Except.error _ => 1
  | Except.ok _ => 0

/-- One `http.post` response observed by the k6 staged script: its status,
its timing duration, and whatever fields `res.json()` exposes (each possibly
absent). -/
structure K6Response where
  status : Nat
  duration : ℚ
  secret : Option String
  commitment : Option String
  proof : Option String
deriving DecidableEq

/-- The three responses the service gives one k6 iteration. -/
structure K6Env where
  regRes : K6Response
  proofRes : K6Response
  verRes : K6Response
deriving DecidableEq

/-- What one k6 iteration emits: the request paths issued in order, the
`(trend name, duration)` entries added via `Trend.add`, the
`(label, passed)` entries recorded via `check`, and whether the pacing
`sleep` ran. -/
structure IterTrace where
  requests : List String
  trends : List (String × ℚ)
  checks : List (String × Bool)
  paced : Bool
deriving DecidableEq

/-- `postJson` from the k6 script: issue the POST, `check` the 200 status,
unconditionally `trend.add` the response duration, and return the response
only on success (`null` — here `none` — signals failure). -/
def postJson (tr : IterTrace) (path : String) (res : K6Response)
    (trendName : String) (label : String) : IterTrace × Option K6Response :=
  let ok := res.status == 200
  ( { tr with
      requests := tr.requests ++ [path]
    , checks := tr.checks ++ [(label, ok)]
    , trends := tr.trends ++ [(trendName, res.duration)] }
  , if ok then some res else none )

/-- The k6 `default function`: register, then proof, then verify; a `null`
from `postJson` after register or proof makes the iteration `sleep` (pace)
and `return`, skipping every remaining step; verify is last, so its outcome
skips nothing; every path ends in the pacing `sleep`. -/
def k6Iteration (env : K6Env) : IterTrace :=
  let tr0 : IterTrace := { requests := [], trends := [], checks := [], paced := false }
  let step1 := postJson tr0 "http://localhost:8080/register" env.regRes "register_latency" "register 200"
  match step1.2 with
  | none => { step1.1 with paced := true }
  | some _ =>
    let step2 := postJson step1.1 "http://localhost:8080/proof" env.proofRes "proof_latency" "proof 200"
    match step2.2 with
    | none => { step2.1 with paced := true }
    | some _ =>
      let step3 := postJson step2.1 "http://localhost:8080/verify" env.verRes "verify_latency" "verify 200"
      { step3.1 with paced := true }

/-! ## Helper lemmas -/

lemma foldl_averages (l : List Sample) (init : Averages) :
    l.foldl (fun a s => Averages.mk (a.cpu + s.cpu) (a.memory + s.memory)) init =
      Averages.mk (init.cpu + (l.map Sample.cpu).sum)
        (init.memory + (l.map Sample.memory).sum) := by
  induction l generalizing init with
  | nil => simp
  | cons s t ih => simp [ih, add_assoc]

lemma runMonitor_aux (ticks : List (Except Unit Sample)) (acc : List Sample) :
    ticks.foldl monitorTick acc = acc ++ ticks.filterMap Except.toOption := by
  induction ticks generalizing acc with
  | nil => simp
  | cons t ts ih =>
    cases t with
    | ok s => simp [monitorTick, ih, Except.toOption]
    | error e => simp [monitorTick, ih, Except.toOption]

lemma filterMap_replicate_error (m : Nat) :
    (List.replicate m (Except.error () : Except Unit Sample)).filterMap
      Except.toOption = [] := by
  induction m with
  | zero => rfl
  | succ k ih => simp [List.replicate_succ, Except.toOption, ih]

/-! ## Claim theorems -/

/-- C2: the readiness check is claimed to poll until any HTTP response
arrives and to fail fatally after 30 fruitless attempts.  In the code,
`axios.get(BASE_URL).catch(e => e.response)` converts every rejection —
including a network error carrying no response — into a resolved value, so
`waitForServer` reports the server ready on its very first attempt no matter
what happens on the wire; in particular a run in which no HTTP response is
ever received (every attempt a network error) still succeeds instead of
exhausting the retry budget. -/
theorem waitForServer_alwaysReady :
    (∀ outcomes : Nat → GetOutcome, waitForServer outcomes 30 = Except.ok ()) ∧
    waitForServer (fun _ => GetOutcome.netError) 30 = Except.ok () := by
  refine ⟨fun outcomes => rfl, rfl⟩

/-- C3: `computeAverages` returns `null` on an empty sample list and the
arithmetic mean of the `cpu` and `memory` fields on a non-empty one, and it
is a deterministic function of the list alone. -/
theorem computeAverages_mean (l : List Sample) :
    (l = [] → computeAverages l = none) ∧
    (l ≠ [] →
      computeAverages l =
        some (Averages.mk ((l.map Sample.cpu).sum / l.length)
          ((l.map Sample.memory).sum / l.length))) ∧
    (∀ m : List Sample, l = m → computeAverages l = computeAverages m) := by
  refine ⟨fun h => by simp [computeAverages, h], fun h => ?_, fun m h => by rw [h]⟩
  have hlen : l.length ≠ 0 := by simpa using h
  simp [computeAverages, hlen, foldl_averages]

/-- Witness for C3 at a concrete sample list and at the empty list. -/
theorem computeAverages_mean_witness :
    computeAverages [Sample.mk 1 2, Sample.mk 3 6] = some (Averages.mk 2 4) ∧
    computeAverages ([] : List Sample) = none := by
  constructor
  · have h := (computeAverages_mean [Sample.mk 1 2, Sample.mk 3 6]).2.1 (by simp)
    rw [h]
    norm_num
  · exact (computeAverages_mean []).1 rfl

/-- C5: the resource monitor accumulates exactly the samples of the
successful ticks, in order — a failing tick is skipped, not fatal — and
`stop()` leaves that list readable; when every tick fails (an invalid pid
makes `pidusage` reject each time) stopping yields the empty list, not an
error. -/
theorem startResourceMonitor_ticks (ticks : List (Except Unit Sample)) (n : Nat) :
    runMonitor ticks = ticks.filterMap Except.toOption ∧
    stopMonitor (runMonitor ticks) = ticks.filterMap Except.toOption ∧
    stopMonitor (runMonitor (List.replicate n (Except.error ()))) = [] := by
  refine ⟨runMonitor_aux ticks [], runMonitor_aux ticks [], ?_⟩
  show runMonitor _ = _
  rw [runMonitor, runMonitor_aux, filterMap_replicate_error]
  rfl

/-- C4: when no server pid was resolved, no phase of the sweep starts a
resource monitor and every summary carries `null` — never `0` — for its CPU
and memory averages. -/
theorem runSweep_noPid_nullMetrics (env : MainEnv) (fx : Fixture)
    (h : env.serverPid = none) :
    ∀ pe ∈ runSweep env fx, pe.monitorStarted = false ∧
      pe.summary.cpu = none ∧ pe.summary.memory = none ∧
      pe.summary.cpu ≠ some 0 ∧ pe.summary.memory ≠ some 0 := by
  intro pe hpe
  rw [runSweep] at hpe
  simp only [List.mem_flatMap, List.mem_map] at hpe
  obtain ⟨ep, -, c, -, rfl⟩ := hpe
  rw [h]
  simp [runPhase]

/-- A concrete run environment whose pid lookup failed. -/
def sweepEnvNoPid : MainEnv :=
  { getOutcomes := fun _ => GetOutcome.success
  , registerResp := Except.ok ⟨some "0xAA", some "123"⟩
  , proofResp := Except.ok ⟨some "proofdata"⟩
  , verifyResp := Except.ok ⟨some true⟩
  , serverPid := none
  , phaseTicks := fun _ _ => []
  , phaseResults := fun _ _ => ⟨⟨1, some 1, some 1, some 1⟩, ⟨1⟩, ⟨1⟩⟩
  , rnd := fun n => toString n }

/-- The fixture the concrete environments above produce. -/
def fixtureA : Fixture := ⟨some "0xAA", some "123", some "proofdata"⟩

/-- The first phase execution of the concrete pid-less sweep. -/
def sweepPhase0 : PhaseExec :=
  runPhase sweepEnvNoPid.serverPid (sweepEnvNoPid.phaseTicks "register" 1)
    (sweepEnvNoPid.phaseResults "register" 1) "register" 1

/-- Witness for C4 at a concrete pid-less environment. -/
theorem runSweep_noPid_nullMetrics_witness :
    sweepEnvNoPid.serverPid = none ∧
    sweepPhase0 ∈ runSweep sweepEnvNoPid fixtureA ∧
    (sweepPhase0.monitorStarted = false ∧ sweepPhase0.summary.cpu = none ∧
      sweepPhase0.summary.memory = none ∧ sweepPhase0.summary.cpu ≠ some 0 ∧
      sweepPhase0.summary.memory ≠ some 0) := by
  have hmem : sweepPhase0 ∈ runSweep sweepEnvNoPid fixtureA := by decide
  exact ⟨rfl, hmem,
    runSweep_noPid_nullMetrics sweepEnvNoPid fixtureA rfl sweepPhase0 hmem⟩

/-- C8: a completed sweep pushes exactly one summary per
(endpoint, concurrency) pair, in loop order: `|endpoints| × |levels| = 3 × 6
= 18` records. -/
theorem runSweep_recordCount (env : MainEnv) (fx : Fixture) :
    ((runSweep env fx).map fun pe => (pe.summary.endpoint, pe.summary.concurrency)) =
      [("register", 1), ("register", 10), ("register", 15), ("register", 20),
       ("register", 25), ("register", 30),
       ("generateProof", 1), ("generateProof", 10), ("generateProof", 15),
       ("generateProof", 20), ("generateProof", 25), ("generateProof", 30),
       ("verifyProof", 1), ("verifyProof", 10), ("verifyProof", 15),
       ("verifyProof", 20), ("verifyProof", 25), ("verifyProof", 30)] ∧
    (runSweep env fx).length =
      (endpoints env.rnd fx).length * CONCURRENCY_LEVELS.length ∧
    (runSweep env fx).length = 18 := by
  refine ⟨rfl, rfl, rfl⟩

/-- An autocannon result whose measured p50 is exactly 0. -/
def resP50Zero : AutocannonResult :=
  { latency := { average := 1, p50 := some 0, median := some 5, mean := some 7 }
  , throughput := { average := 2 }
  , requests := { average := 3 } }

/-- C7 counterexample: this phase's measurement has p50 available and equal
to 0, yet the reported `latencyP50` is the median 5, not that p50 — the `||`
chain treats the available 0 as absent. -/
theorem latencyP50_zero_not_reported :
    resP50Zero.latency.p50 = some 0 ∧
    (runPhase none [] resP50Zero "register" 1).summary.latencyP50 = some 5 ∧
    (runPhase none [] resP50Zero "register" 1).summary.latencyP50 ≠
      resP50Zero.latency.p50 := by
  refine ⟨rfl, by decide, by decide⟩

/-- C7 amended: the reported 50th-percentile latency equals the
measurement's p50 when that is available and nonzero; otherwise the
measurement's median when that is available and nonzero; otherwise the
measurement's mean. -/
theorem latencyP50_fallback (pid : Option Nat) (ticks : List (Except Unit Sample))
    (res : AutocannonResult) (epName : String) (c : Nat) :
    (∀ x : ℚ, res.latency.p50 = some x → x ≠ 0 →
      (runPhase pid ticks res epName c).summary.latencyP50 = some x) ∧
    (jsTruthy res.latency.p50 = false →
      ∀ y : ℚ, res.latency.median = some y → y ≠ 0 →
        (runPhase pid ticks res epName c).summary.latencyP50 = some y) ∧
    (jsTruthy res.latency.p50 = false → jsTruthy res.latency.median = false →
      (runPhase pid ticks res epName c).summary.latencyP50 =
        res.latency.mean) := by
  refine ⟨?_, ?_, ?_⟩
  · intro x hx hne
    have htx : jsTruthy (some x) = true := by simp [jsTruthy, hne]
    simp [runPhase, jsOr, hx, htx]
  · intro h50 y hy hne
    have hty : jsTruthy (some y) = true := by simp [jsTruthy, hne]
    simp [runPhase, jsOr, h50, hy, hty]
  · intro h50 hmed
    simp [runPhase, jsOr, h50, hmed]

/-- An autocannon result whose measured p50 is the nonzero value 9. -/
def resP50Nine : AutocannonResult :=
  { latency := { average := 1, p50 := some 9, median := some 5, mean := some 7 }
  , throughput := { average := 2 }
  , requests := { average := 3 } }

/-- Witness for the amended C7 at a nonzero measured p50. -/
theorem latencyP50_fallback_witness :
    resP50Nine.latency.p50 = some 9 ∧ (9 : ℚ) ≠ 0 ∧
    (runPhase none [] resP50Nine "register" 1).summary.latencyP50 = some 9 := by
  refine ⟨rfl, by norm_num, ?_⟩
  exact (latencyP50_fallback none [] resP50Nine "register" 1).1 9 rfl (by norm_num)

/-- An autocannon result with a zero measured p50, for the C10 witness. -/
def zeroP50Result : AutocannonResult :=
  { latency := { average := 4, p50 := some 0, median := some 11, mean := some 13 }
  , throughput := { average := 2 }
  , requests := { average := 3 } }

/-- C10: because `latencyP50` is the JavaScript `||` chain, a measured p50
of exactly 0 is treated as unavailable — the report falls back to the median
(or, if that is also falsy, the mean) — and the reported value equals the
measured p50 whenever that p50 is nonzero. -/
theorem latencyP50_zero_fallback (pid : Option Nat)
    (ticks : List (Except Unit Sample)) (res : AutocannonResult)
    (epName : String) (c : Nat) :
    (res.latency.p50 = some 0 →
      (runPhase pid ticks res epName c).summary.latencyP50 =
        jsOr res.latency.median res.latency.mean) ∧
    (∀ x : ℚ, res.latency.p50 = some x → x ≠ 0 →
      (runPhase pid ticks res epName c).summary.latencyP50 = some x) := by
  constructor
  · intro h0
    have ht0 : jsTruthy (some (0 : ℚ)) = false := by simp [jsTruthy]
    simp [runPhase, jsOr, h0, ht0]
  · intro x hx hne
    have htx : jsTruthy (some x) = true := by simp [jsTruthy, hne]
    simp [runPhase, jsOr, hx, htx]

/-- Witness for C10 at a measurement whose p50 is exactly 0. -/
theorem latencyP50_zero_fallback_witness :
    zeroP50Result.latency.p50 = some 0 ∧
    (runPhase none [] zeroP50Result "register" 1).summary.latencyP50 =
      jsOr zeroP50Result.latency.median zeroP50Result.latency.mean := by
  exact ⟨rfl, (latencyP50_zero_fallback none [] zeroP50Result "register" 1).1 rfl⟩

/-- C1 amended: if any preflight request rejects (network error or
non-success status), or the verify response's `valid` field is false or
missing, the whole run aborts with a descriptive (non-empty) error and exit
status 1, and no phase list — hence no SummaryRecord — is produced.  (A
register or proof success response that merely lacks a field does not abort
by itself; the `undefined` value is carried into the later requests.) -/
theorem preflight_failure_aborts (env : MainEnv)
    (h : (∃ e, env.registerResp = Except.error e) ∨
         (∃ e, env.proofResp = Except.error e) ∨
         (∃ e, env.verifyResp = Except.error e) ∨
         (∀ ver, env.verifyResp = Except.ok ver → ver.valid ≠ some true)) :
    (∃ msg, mainRun env = Except.error msg ∧ msg ≠ "") ∧
    exitCode (mainRun env) = 1 ∧
    ∀ l, mainRun env ≠ Except.ok l := by
  have hp : ∃ msg, preflight env = Except.error msg ∧ msg ≠ "" := by
    rcases hr : env.registerResp with e | reg
    · exact ⟨"Failed to pre-compute proof / verification payloads",
        by rw [preflight, hr], by decide⟩
    · rcases hpr : env.proofResp with e | prf
      · exact ⟨"Failed to pre-compute proof / verification payloads",
          by rw [preflight, hr, hpr], by decide⟩
      · rcases hv : env.verifyResp with e | ver
        · exact ⟨"Failed to pre-compute proof / verification payloads",
            by rw [preflight, hr, hpr, hv], by decide⟩
        · have hval : ver.valid ≠ some true := by
            rcases h with ⟨e, he⟩ | ⟨e, he⟩ | ⟨e, he⟩ | hval
            · rw [hr] at he; exact absurd he (by simp)
            · rw [hpr] at he; exact absurd he (by simp)
            · rw [hv] at he; exact absurd he (by simp)
            · exact hval ver hv
          refine ⟨"Initial verification failed; proof or commitment invalid",
            ?_, by decide⟩
          rw [preflight, hr, hpr, hv]
          simp only [if_neg hval]
  obtain ⟨msg, hmsg, hne⟩ := hp
  have hw : waitForServer env.getOutcomes 30 = Except.ok () := rfl
  have hmain : mainRun env = Except.error msg := by
    rw [mainRun, hw, hmsg]
  refine ⟨⟨msg, hmain, hne⟩, by rw [hmain]; rfl, fun l hl => ?_⟩
  rw [hmain] at hl
  exact Except.noConfusion hl

/-- A run whose register step returns success but with both `secret` and
`commitment` absent; the later steps succeed and verify says `valid:true`. -/
def envMissingField : MainEnv :=
  { getOutcomes := fun _ => GetOutcome.success
  , registerResp := Except.ok ⟨none, none⟩
  , proofResp := Except.ok ⟨some "proofdata"⟩
  , verifyResp := Except.ok ⟨some true⟩
  , serverPid := none
  , phaseTicks := fun _ _ => []
  , phaseResults := fun _ _ => ⟨⟨1, some 1, some 1, some 1⟩, ⟨1⟩, ⟨1⟩⟩
  , rnd := fun n => toString n }

/-- C1 counterexample: a preflight register response missing its required
fields is a failing step under the claim, yet the run does not abort — it
completes the sweep, produces all 18 summaries and exits 0. -/
theorem preflight_missing_field_no_abort :
    envMissingField.registerResp =
      Except.ok { secret := none, commitment := none } ∧
    mainRun envMissingField =
      Except.ok (runSweep envMissingField ⟨none, none, some "proofdata"⟩) ∧
    (runSweep envMissingField ⟨none, none, some "proofdata"⟩).length = 18 ∧
    exitCode (mainRun envMissingField) = 0 := by
  exact ⟨rfl, rfl, rfl, rfl⟩

/-- A run whose preflight verify step answers `{valid:false}`. -/
def envVerifyFalse : MainEnv :=
  { getOutcomes := fun _ => GetOutcome.success
  , registerResp := Except.ok ⟨some "0xAA", some "123"⟩
  , proofResp := Except.ok ⟨some "proofdata"⟩
  , verifyResp := Except.ok ⟨some false⟩
  , serverPid := none
  , phaseTicks := fun _ _ => []
  , phaseResults := fun _ _ => ⟨⟨1, some 1, some 1, some 1⟩, ⟨1⟩, ⟨1⟩⟩
  , rnd := fun n => toString n }

/-- Witness for the amended C1 at a run whose verify step says
`valid:false`. -/
theorem preflight_failure_aborts_witness :
    ((∃ e, envVerifyFalse.registerResp = Except.error e) ∨
     (∃ e, envVerifyFalse.proofResp = Except.error e) ∨
     (∃ e, envVerifyFalse.verifyResp = Except.error e) ∨
     (∀ ver, envVerifyFalse.verifyResp = Except.ok ver →
        ver.valid ≠ some true)) ∧
    exitCode (mainRun envVerifyFalse) = 1 := by
  have hdis : (∃ e, envVerifyFalse.registerResp = Except.error e) ∨
      (∃ e, envVerifyFalse.proofResp = Except.error e) ∨
      (∃ e, envVerifyFalse.verifyResp = Except.error e) ∨
      (∀ ver, envVerifyFalse.verifyResp = Except.ok ver →
        ver.valid ≠ some true) := by
    refine Or.inr (Or.inr (Or.inr fun ver hv => ?_))
    have : ver = VerifyData.mk (some false) := by
      have := hv.symm
      exact (Except.ok.injEq _ _).mp this.symm |>.symm ▸ rfl
    rw [this]
    decide
  exact ⟨hdis, (preflight_failure_aborts envVerifyFalse hdis).2.1⟩

/-- C6: in one staged-engine iteration, a non-200 register response ends the
iteration after only the register request — its latency still lands in the
register trend and its failure in the `register 200` check — and pacing
runs; a 200 register with a non-200 proof response likewise stops before
verify; when register and proof both succeed, all three requests are issued
and the verify check records the verify status, whatever it is (verify is
last, so its failure skips nothing). -/
theorem k6Iteration_chain (env : K6Env) :
    (env.regRes.status ≠ 200 →
      k6Iteration env =
        { requests := ["http://localhost:8080/register"]
        , trends := [("register_latency", env.regRes.duration)]
        , checks := [("register 200", false)]
        , paced := true }) ∧
    (env.regRes.status = 200 → env.proofRes.status ≠ 200 →
      k6Iteration env =
        { requests := ["http://localhost:8080/register", "http://localhost:8080/proof"]
        , trends := [("register_latency", env.regRes.duration),
                     ("proof_latency", env.proofRes.duration)]
        , checks := [("register 200", true), ("proof 200", false)]
        , paced := true }) ∧
    (env.regRes.status = 200 → env.proofRes.status = 200 →
      k6Iteration env =
        { requests := ["http://localhost:8080/register", "http://localhost:8080/proof",
                       "http://localhost:8080/verify"]
        , trends := [("register_latency", env.regRes.duration),
                     ("proof_latency", env.proofRes.duration),
                     ("verify_latency", env.verRes.duration)]
        , checks := [("register 200", true), ("proof 200", true),
                     ("verify 200", env.verRes.status == 200)]
        , paced := true }) := by
  refine ⟨?_, ?_, ?_⟩
  · intro hr
    have h1 : (env.regRes.status == 200) = false := by simp [hr]
    simp [k6Iteration, postJson, h1]
  · intro hr hp
    have h1 : (env.regRes.status == 200) = true := by simp [hr]
    have h2 : (env.proofRes.status == 200) = false := by simp [hp]
    simp [k6Iteration, postJson, h1, h2]
  · intro hr hp
    have h1 : (env.regRes.status == 200) = true := by simp [hr]
    have h2 : (env.proofRes.status == 200) = true := by simp [hp]
    simp [k6Iteration, postJson, h1, h2]

/-- An iteration whose register call comes back HTTP 500. -/
def k6EnvRegFail : K6Env :=
  { regRes := ⟨500, 12, none, none, none⟩
  , proofRes := ⟨200, 3, none, none, none⟩
  , verRes := ⟨200, 4, none, none, none⟩ }

/-- Witness for C6 at an iteration whose register call fails with 500. -/
theorem k6Iteration_chain_witness :
    k6EnvRegFail.regRes.status ≠ 200 ∧
    k6Iteration k6EnvRegFail =
      { requests := ["http://localhost:8080/register"]
      , trends := [("register_latency", 12)]
      , checks := [("register 200", false)]
      , paced := true } := by
  have h : k6EnvRegFail.regRes.status ≠ 200 := by decide
  exact ⟨h, (k6Iteration_chain k6EnvRegFail).1 h⟩

/-- `buildUser` payloads built from different randomness are different:
the randomness is embedded verbatim in the email address. -/
lemma buildUser_inj (r s : String) (h : buildUser r = buildUser s) : r = s := by
  have he : "user-" ++ r ++ "@example.com" = "user-" ++ s ++ "@example.com" :=
    congrArg User.email h
  have hd := congrArg String.data he
  simp [String.data_append] at hd
  exact String.ext hd

/-- C9: in the sweep's endpoint table, the register template rebuilds a
fresh synthetic user per request (distinct randomness gives distinct
payloads), while the proof and verify templates carry one fixed
fixture-derived body, identical for every request index. -/
theorem endpoints_payload_shape (rnd : Nat → String) (fx : Fixture) :
    ((endpoints rnd fx).map EndpointSpec.name =
      ["register", "generateProof", "verifyProof"]) ∧
    (∀ ep ∈ endpoints rnd fx, ep.name = "register" →
      (∀ i, ep.payload i = Payload.userPayload (buildUser (rnd i))) ∧
      (∀ i j, rnd i ≠ rnd j → ep.payload i ≠ ep.payload j)) ∧
    (∀ ep ∈ endpoints rnd fx, ep.name = "generateProof" →
      ∀ i, ep.payload i = Payload.proofReq fx.secretHex fx.commitment) ∧
    (∀ ep ∈ endpoints rnd fx, ep.name = "verifyProof" →
      ∀ i, ep.payload i = Payload.verifyReq fx.commitment fx.proof) := by
  refine ⟨rfl, ?_, ?_, ?_⟩
  · intro ep hep hname
    simp only [endpoints, List.mem_cons, List.not_mem_nil, or_false] at hep
    rcases hep with rfl | rfl | rfl
    · refine ⟨fun i => rfl, fun i j hne heq => hne ?_⟩
      have := Payload.userPayload.inj heq
      exact buildUser_inj _ _ this
    · simp at hname
    · simp at hname
  · intro ep hep hname
    simp only [endpoints, List.mem_cons, List.not_mem_nil, or_false] at hep
    rcases hep with rfl | rfl | rfl
    · simp at hname
    · exact fun i => rfl
    · simp at hname
  · intro ep hep hname
    simp only [endpoints, List.mem_cons, List.not_mem_nil, or_false] at hep
    rcases hep with rfl | rfl | rfl
    · simp at hname
    · simp at hname
    · exact fun i => rfl

/-- A concrete randomness stream for the C9 witness. -/
def rndDemo : Nat → String := fun n => toString n

/-- The register endpoint of the concrete endpoint table. -/
def epRDemo : EndpointSpec :=
  { name := "register", method := "POST", path := "/register"
  , payload := fun i => Payload.userPayload (buildUser (rndDemo i)) }

/-- Witness for C9: in the concrete table the register template is fresh per
request (indices 0 and 1 get different payloads). -/
theorem endpoints_payload_shape_witness :
    epRDemo ∈ endpoints rndDemo fixtureA ∧
    epRDemo.name = "register" ∧
    epRDemo.payload 0 = Payload.userPayload (buildUser (rndDemo 0)) ∧
    rndDemo 0 ≠ rndDemo 1 ∧
    epRDemo.payload 0 ≠ epRDemo.payload 1 := by
  have hmem : epRDemo ∈ endpoints rndDemo fixtureA := by
    rw [endpoints]
    exact List.mem_cons_self _ _
  have h := (endpoints_payload_shape rndDemo fixtureA).2.1 epRDemo hmem rfl
  exact ⟨hmem, rfl, h.1 0, by decide, h.2 0 1 (by decide)⟩

end Bench
